import Mathlib

/-!
# Shallow embedding of log4rs_test_utils

This file embeds the data model and operations of the crate
log4rs_test_utils (src/lib.rs, src/log_testing.rs, src/string_buffer.rs,
src/test_logging.rs) and proves the frozen claims about them.

External collaborators (the log4rs backend and the log crate) are modelled
only as far as the crate code observes them: config validation in
log4rs Config::builder().build, the one-shot semantics of
log4rs::init_config / log::set_logger, levels, and the pattern encoder
identity (its pattern string).  Rust panics are modelled as the none /
error branch of an Option / Except result; machine strings are Lean
Strings, byte buffers are lists of byte values, Rust String contents are
lists of Unicode scalar values.
-/

deriving instance DecidableEq for Except

namespace Log4rsTestUtils

/-- log::LevelFilter, ordered from silent to most verbose. -/
inductive LevelFilter
  | Off
  | Error
  | Warn
  | Info
  | Debug
  | Trace
deriving DecidableEq, Repr

/-- A log record as the sinks observe it (log::Record): level, target and
formatted message. -/
structure LogRecord where
  level : LevelFilter
  target : String
  message : String
deriving DecidableEq, Repr

/-- The identity of a Box<dyn Encode> value as the configs store it: either a
log4rs PatternEncoder with its pattern string, or some other encoder. -/
inductive EncoderSpec
  | patternEncoder (pat : String)
  | customEncoder (id : Nat)
deriving DecidableEq, Repr

/-- log4rs PatternEncoder::default(): its documented default pattern is
"{d} {l} {t} - {m}{n}". -/
def patternEncoderDefault : EncoderSpec := .patternEncoder "{d} {l} {t} - {m}{n}"

/-- The appender implementations this crate wires into configs. -/
inductive AppenderImpl
  | testConsole (encoder : EncoderSpec)
  | mock (encoder : EncoderSpec)
deriving DecidableEq, Repr

/-- A named appender inside a log4rs Config. -/
structure AppenderDef where
  name : String
  impl : AppenderImpl
deriving DecidableEq, Repr

/-- A named logger inside a log4rs Config (log4rs::config::Logger):
target name, level, and the names of the appenders it routes to. -/
structure LoggerDef where
  name : String
  level : LevelFilter
  appenders : List String
deriving DecidableEq, Repr

/-- The root logger of a log4rs Config. -/
structure RootDef where
  level : LevelFilter
  appenders : List String
deriving DecidableEq, Repr

/-- A validated log4rs Config. -/
structure Config where
  appenders : List AppenderDef
  loggers : List LoggerDef
  root : RootDef
deriving DecidableEq, Repr

/-- The validation errors of log4rs Config::builder().build that this
crate inputs can trigger. -/
inductive ConfigError
  | DuplicateAppenderName
  | DuplicateLoggerName
  | NonexistentAppender
deriving DecidableEq, Repr

/-- log4rs Config::builder().appenders(..).loggers(..).build(root)
(external collaborator): rejects duplicate appender names, duplicate
logger names, and references to appenders that do not exist. -/
def configBuild (appenders : List AppenderDef) (loggers : List LoggerDef)
    (root : RootDef) : Except ConfigError Config :=
  if (appenders.map (fun a => a.name)).Nodup then
    if (loggers.map (fun l => l.name)).Nodup then
      if (root.appenders ++ (loggers.map (fun l => l.appenders)).flatten).all
          (fun a => (appenders.map (fun d => d.name)).contains a) then
        .ok ⟨appenders, loggers, root⟩
      else .error .NonexistentAppender
    else .error .DuplicateLoggerName
  else .error .DuplicateAppenderName

/-- Is b a UTF-8 continuation byte (0x80..0xBF)? -/
def isUtf8Cont (b : Nat) : Bool := decide (0x80 ≤ b) && decide (b < 0xC0)

/-- Whole-input UTF-8 decoding into Unicode scalar values, with the validity
rules of Rust String::from_utf8: ASCII, 2-byte C2..DF, 3-byte E0..EF
excluding overlong (E0 A0..BF) and surrogates (ED 80..9F), 4-byte F0..F4
excluding overlong (F0 90..BF) and values above U+10FFFF (F4 80..8F);
anything else, including truncated sequences, is invalid. -/
def utf8Decode : List Nat → Option (List Nat)
  | [] => some []
  | b0 :: rest =>
    if b0 < 0x80 then
      (utf8Decode rest).map (fun cs => b0 :: cs)
    else if b0 < 0xC2 then
      none
    else if b0 < 0xE0 then
      match rest with
      | b1 :: rest1 =>
        if isUtf8Cont b1 then
          (utf8Decode rest1).map (fun cs => ((b0 - 0xC0) * 0x40 + (b1 - 0x80)) :: cs)
        else none
      | [] => none
    else if b0 < 0xF0 then
      match rest with
      | b1 :: b2 :: rest2 =>
        let b1ok : Bool :=
          if b0 = 0xE0 then decide (0xA0 ≤ b1) && decide (b1 < 0xC0)
          else if b0 = 0xED then decide (0x80 ≤ b1) && decide (b1 < 0xA0)
          else isUtf8Cont b1
        if b1ok && isUtf8Cont b2 then
          (utf8Decode rest2).map (fun cs =>
            ((b0 - 0xE0) * 0x1000 + (b1 - 0x80) * 0x40 + (b2 - 0x80)) :: cs)
        else none
      | _ => none
    else if b0 < 0xF5 then
      match rest with
      | b1 :: b2 :: b3 :: rest3 =>
        let b1ok : Bool :=
          if b0 = 0xF0 then decide (0x90 ≤ b1) && decide (b1 < 0xC0)
          else if b0 = 0xF4 then decide (0x80 ≤ b1) && decide (b1 < 0x90)
          else isUtf8Cont b1
        if b1ok && isUtf8Cont b2 && isUtf8Cont b3 then
          (utf8Decode rest3).map (fun cs =>
            ((b0 - 0xF0) * 0x40000 + (b1 - 0x80) * 0x1000
              + (b2 - 0x80) * 0x40 + (b3 - 0x80)) :: cs)
        else none
      | _ => none
    else none

/-- io::ErrorKind values StringBuffer can produce. -/
inductive IoErrorKind
  | InvalidData
deriving DecidableEq, Repr

/-- StringBuffer (src/string_buffer.rs) io::Write::write: validates the whole
byte slice as UTF-8 via String::from_utf8 on a copy; on success appends the
decoded text to the internal String and returns Ok(buf.len()); on failure
returns an InvalidData error and leaves the buffer untouched.  The pair is
(new buffer contents, returned result). -/
def StringBuffer.write (sb : List Nat) (buf : List Nat) :
    List Nat × Except IoErrorKind Nat :=
  match utf8Decode buf with
  | none => (sb, .error .InvalidData)
  | some cps => (sb ++ cps, .ok buf.length)

/-- StringBuffer io::Write::flush: returns Ok(()) and changes nothing. -/
def StringBuffer.flush (sb : List Nat) : List Nat × Except IoErrorKind Unit :=
  (sb, .ok ())

/-- TestConsoleAppender::make_config (src/test_logging.rs).  Defaults the
level to Trace and the pattern to "{l} {M}::{L} {m}{n}", builds one
TestConsoleAppender named "appender", one named logger per target routed to
it, then either (targets empty) a root at the level routed to the appender
with no loggers, or (targets non-empty) a silenced root with the loggers.
The final .unwrap() panic on a validation error is the .error branch. -/
def TestConsoleAppender.make_config (targets : List String)
    (level : Option LevelFilter) (pattern : Option String) :
    Except ConfigError Config :=
  let lvl := level.getD .Trace
  let pat := pattern.getD "{l} {M}::{L} {m}{n}"
  let appender : AppenderDef := ⟨"appender", .testConsole (.patternEncoder pat)⟩
  let loggers : List LoggerDef := targets.map (fun t => ⟨t, lvl, ["appender"]⟩)
  if loggers.isEmpty then
    configBuild [appender] [] ⟨lvl, ["appender"]⟩
  else
    configBuild [appender] loggers ⟨.Off, []⟩

/-- The process-global state that src/test_logging.rs manipulates:
the INIT one-shot gate (std::sync::Once), the global logger slot that
log4rs::init_config / log::set_logger writes (None until someone sets it),
and two instrumentation counters recording how often log4rs::init_config
was invoked and how many warnings were emitted. -/
structure InitState where
  onceDone : Bool
  logger : Option Config
  applies : Nat
  warns : Nat
deriving DecidableEq, Repr

/-- The fresh process state: gate unset, logger never configured. -/
def freshInitState : InitState := ⟨false, none, 0, 0⟩

/-- log4rs::init_config (external collaborator): sets the global logger and
returns Ok on the first call, returns a SetLoggerError (false) and leaves
the logger unchanged if it was already set. -/
def log4rsInitConfig (cfg : Config) (logger : Option Config) :
    Option Config × Bool :=
  match logger with
  | none => (some cfg, true)
  | some c => (some c, false)

/-- init_logging_once (src/test_logging.rs): INIT.call_once runs its closure
only if the gate is unset; the closure calls log4rs::init_config and, on
error, downgrades the failure to a warning.  The Rust function returns unit
and has no panic path, so the model is a total state transition. -/
def init_logging_once (config : Config) (s : InitState) : InitState :=
  if s.onceDone then s
  else
    match log4rsInitConfig config s.logger with
    | (l, true) => ⟨true, l, s.applies + 1, s.warns⟩
    | (l, false) => ⟨true, l, s.applies + 1, s.warns + 1⟩

/-- A sequence of init_logging_once calls, first call first. -/
def runInitOnce : List Config → InitState → InitState
  | [], s => s
  | c :: cs, s => runInitOnce cs (init_logging_once c s)

/-- The observable outcome of one init_logging_once_for call: a normal
return carrying the new process state and whether a config object was
constructed, or a panic escaping from the .unwrap() in make_config. -/
inductive ForResult
  | ok (s : InitState) (configBuilt : Bool)
  | panicked (e : ConfigError)
deriving DecidableEq, Repr

/-- init_logging_once_for (src/test_logging.rs): returns immediately if
INIT.is_completed(), otherwise builds the config with make_config
(propagating its panic) and delegates to init_logging_once. -/
def init_logging_once_for (targets : List String) (level : Option LevelFilter)
    (pattern : Option String) (s : InitState) : ForResult :=
  if s.onceDone then .ok s false
  else
    match TestConsoleAppender.make_config targets level pattern with
    | .error e => .panicked e
    | .ok config => .ok (init_logging_once config s) true

/-- The TEST_MUTEX of src/log_testing.rs, payload (): the only state a
sequential model can observe is whether a previous holder poisoned it. -/
structure TestMutexState where
  poisoned : Bool
deriving DecidableEq, Repr

/-- What std Mutex::lock returns once the lock is acquired (blocking until
then): Ok(guard), or Err(PoisonError) still carrying the held guard. -/
inductive LockResult
  | okGuard
  | poisonErrGuard
deriving DecidableEq, Repr

/-- Mutex::lock on TEST_MUTEX, modelled at the instant the lock is granted. -/
def mutexLock (m : TestMutexState) : LockResult :=
  if m.poisoned then .poisonErrGuard else .okGuard

/-- The lazily initialized global HANDLE: the currently active config. -/
structure HandleState where
  current : Config
deriving DecidableEq, Repr

/-- logging_test_setup (src/log_testing.rs): lock TEST_MUTEX (blocking; the
model starts at acquisition), HANDLE.set_config(config) while holding it,
then match on the lock result, returning the guard from Ok and from
Err(poison) via poison.into_inner() alike.  The Bool records that the held
guard is returned to the caller; none would model a panic and is never
produced. -/
def logging_test_setup (config : Config) (m : TestMutexState)
    (h : HandleState) : Option (Bool × HandleState) :=
  let guard := mutexLock m
  let h2 : HandleState := ⟨config⟩
  match guard with
  | .okGuard => some (true, h2)
  | .poisonErrGuard => some (true, h2)

/-- A MockAppender value: its encoder and the shared log buffer it pushes
to (held through an Arc<Mutex<Vec<String>>> handle). -/
structure MockAppenderState where
  encoder : EncoderSpec
  logs : List String
deriving DecidableEq, Repr

/-- MockAppender::new (src/lib.rs): the encoder argument is
impl Into<Option<Box<dyn Encode>>> and defaults to PatternEncoder::default()
when none is supplied; returns the appender together with a handle to its
fresh, empty log buffer. -/
def MockAppender.new (encoder : Option EncoderSpec) :
    MockAppenderState × List String :=
  let enc := encoder.getD patternEncoderDefault
  (⟨enc, []⟩, [])

/-- MockAppender::append (src/log_testing.rs): encode the record into a
fresh StringBuffer — the injected dyn Encode is modelled as a function from
records to the buffer contents it produces, none when encoding fails — then
.unwrap() (none = panic), push the line onto the shared buffer, and return
Ok(()).  The result pair is (new buffer, the anyhow::Result return value). -/
def MockAppender.append (enc : LogRecord → Option String) (logs : List String)
    (r : LogRecord) : Option (List String × Except String Unit) :=
  match enc r with
  | none => none
  | some line => some (logs ++ [line], Except.ok ())

/-- A sequence of MockAppender::append calls without thread interleaving;
a panic in any call aborts the sequence. -/
def MockAppender.appendAll (enc : LogRecord → Option String)
    (logs : List String) : List LogRecord → Option (List String)
  | [] => some logs
  | r :: rs =>
    match MockAppender.append enc logs r with
    | none => none
    | some (logs2, _) => MockAppender.appendAll enc logs2 rs

/-- logging_test_setup_mock (src/log_testing.rs): resolve the encoder
(default PatternEncoder::new("{l} {t} {m}")), create a fresh MockAppender,
wrap it in an appender named "mock", resolve the level (default Trace),
build a root routed to "mock" at that level, build the config (.unwrap()
panic would be none), and call logging_test_setup; returns the guard and
the new log-buffer handle. -/
def logging_test_setup_mock (level : Option LevelFilter)
    (encoder : Option EncoderSpec) (m : TestMutexState) (h : HandleState) :
    Option (Bool × HandleState × List String) :=
  let enc := encoder.getD (.patternEncoder "{l} {t} {m}")
  let mockAndLogs : MockAppenderState × List String := (⟨enc, []⟩, [])
  let appender : AppenderDef := ⟨"mock", .mock mockAndLogs.1.encoder⟩
  let lvl := level.getD .Trace
  let root : RootDef := ⟨lvl, ["mock"]⟩
  match configBuild [appender] [] root with
  | .error _ => none
  | .ok config =>
    (logging_test_setup config m h).map (fun g => (g.1, g.2, mockAndLogs.2))

/-! ## Helper lemmas -/

/-- Once the INIT gate is set, any further sequence of init_logging_once
calls leaves the state untouched. -/
theorem runInitOnce_done (cs : List Config) (s : InitState)
    (h : s.onceDone = true) : runInitOnce cs s = s := by
  induction cs with
  | nil => rfl
  | cons c cs ih =>
    show runInitOnce cs (init_logging_once c s) = s
    rw [show init_logging_once c s = s by simp [init_logging_once, h]]
    exact ih

/-- logging_test_setup always reconfigures the handle and hands the guard
back, for a poisoned and an unpoisoned mutex alike. -/
theorem logging_test_setup_eq (config : Config) (m : TestMutexState)
    (h : HandleState) : logging_test_setup config m h = some (true, ⟨config⟩) := by
  obtain ⟨p⟩ := m
  cases p <;> rfl

/-- The names of the loggers make_config builds are exactly the targets. -/
theorem logger_names_eq (ts : List String) (lvl : LevelFilter) :
    List.map (fun l => l.name)
      (List.map (fun t => (⟨t, lvl, ["appender"]⟩ : LoggerDef)) ts) = ts := by
  induction ts with
  | nil => rfl
  | cons a ts ih => simpa using ih

/-- Every appender name referenced by the loggers make_config builds is
found in a name list containing "appender". -/
theorem logger_appenders_all (ts : List String) (lvl : LevelFilter)
    (nms : List String) (h : nms.contains "appender" = true) :
    ((List.map (fun l => l.appenders)
        (List.map (fun t => (⟨t, lvl, ["appender"]⟩ : LoggerDef)) ts)).flatten).all
      (fun a => nms.contains a) = true := by
  have hm : "appender" ∈ nms := by simpa using h
  rw [List.all_eq_true]
  intro x hx
  rw [List.mem_flatten] at hx
  obtain ⟨l, hl, hxl⟩ := hx
  rw [List.mem_map] at hl
  obtain ⟨ld, hld, rfl⟩ := hl
  rw [List.mem_map] at hld
  obtain ⟨t, ht, rfl⟩ := hld
  simp only [List.mem_singleton] at hxl
  subst hxl
  simpa using hm

/-- make_config with duplicated targets hits the log4rs duplicate-logger-name
validation error and panics on the .unwrap(). -/
theorem make_config_dup_helper (targets : List String)
    (level : Option LevelFilter) (pattern : Option String)
    (hdup : ¬ targets.Nodup) :
    TestConsoleAppender.make_config targets level pattern =
      .error .DuplicateLoggerName := by
  cases targets with
  | nil => exact absurd List.nodup_nil hdup
  | cons a ts =>
    have hisEmpty : (List.map (fun t =>
        (⟨t, level.getD .Trace, ["appender"]⟩ : LoggerDef)) (a :: ts)).isEmpty
        = false := rfl
    simp only [TestConsoleAppender.make_config, configBuild, hisEmpty,
      Bool.false_eq_true, if_false]
    rw [logger_names_eq (a :: ts) (level.getD .Trace)]
    rw [if_pos (by simp), if_neg hdup]

/-- make_config on an empty target list. -/
theorem make_config_nil_helper (level : Option LevelFilter)
    (pattern : Option String) :
    TestConsoleAppender.make_config [] level pattern =
      .ok ⟨[⟨"appender",
              .testConsole (.patternEncoder (pattern.getD "{l} {M}::{L} {m}{n}"))⟩],
           [], ⟨level.getD .Trace, ["appender"]⟩⟩ := by
  have hisEmpty : (List.map (fun t =>
      (⟨t, level.getD .Trace, ["appender"]⟩ : LoggerDef)) ([] : List String)).isEmpty
      = true := rfl
  simp only [TestConsoleAppender.make_config, configBuild, hisEmpty, if_true]
  rw [if_pos (by simp), if_pos (by simp), if_pos (by rfl)]

/-- make_config on a duplicate-free non-empty target list. -/
theorem make_config_cons_helper (a : String) (ts : List String)
    (level : Option LevelFilter) (pattern : Option String)
    (hnodup : (a :: ts).Nodup) :
    TestConsoleAppender.make_config (a :: ts) level pattern =
      .ok ⟨[⟨"appender",
              .testConsole (.patternEncoder (pattern.getD "{l} {M}::{L} {m}{n}"))⟩],
           (a :: ts).map (fun t => ⟨t, level.getD .Trace, ["appender"]⟩),
           ⟨.Off, []⟩⟩ := by
  have hisEmpty : (List.map (fun t =>
      (⟨t, level.getD .Trace, ["appender"]⟩ : LoggerDef)) (a :: ts)).isEmpty
      = false := rfl
  simp only [TestConsoleAppender.make_config, configBuild, hisEmpty,
    Bool.false_eq_true, if_false]
  rw [logger_names_eq (a :: ts) (level.getD .Trace)]
  rw [if_pos (by simp), if_pos hnodup, if_pos]
  show (([] : List String) ++ _).all _ = true
  rw [List.nil_append]
  exact logger_appenders_all (a :: ts) (level.getD .Trace) _ (by rfl)

/-! ## Claim theorems -/

/-- C1: For every N >= 1 calls to init_logging_once with arbitrary configs,
the global logger ends up configured at most once, using exactly one of the
supplied configs: starting from the fresh process state, the first call runs
log4rs::init_config (exactly one invocation), which installs the first
supplied config, every subsequent call is a no-op, and no call errors or
panics (init_logging_once is a total state transition returning unit); when
a third party had already configured the logger, the single failed apply is
downgraded to a warning and the calls still all return. -/
theorem init_once_first_config_wins (configs : List Config)
    (h : configs ≠ []) :
    ((runInitOnce configs freshInitState).logger = some (configs.head h) ∧
     (runInitOnce configs freshInitState).applies = 1 ∧
     (runInitOnce configs freshInitState).onceDone = true ∧
     (runInitOnce configs freshInitState).warns = 0) ∧
    ∀ c0 : Config,
      (runInitOnce configs ⟨false, some c0, 0, 0⟩).logger = some c0 ∧
      (runInitOnce configs ⟨false, some c0, 0, 0⟩).applies = 1 ∧
      (runInitOnce configs ⟨false, some c0, 0, 0⟩).warns = 1 := by
  match configs, h with
  | c :: cs, _ =>
    have hfresh : runInitOnce (c :: cs) freshInitState = ⟨true, some c, 1, 0⟩ := by
      show runInitOnce cs (init_logging_once c freshInitState) = _
      rw [show init_logging_once c freshInitState = ⟨true, some c, 1, 0⟩ from rfl]
      exact runInitOnce_done cs _ rfl
    refine ⟨by rw [hfresh]; exact ⟨rfl, rfl, rfl, rfl⟩, fun c0 => ?_⟩
    have hthird : runInitOnce (c :: cs) ⟨false, some c0, 0, 0⟩ =
        ⟨true, some c0, 1, 1⟩ := by
      show runInitOnce cs (init_logging_once c ⟨false, some c0, 0, 0⟩) = _
      rw [show init_logging_once c ⟨false, some c0, 0, 0⟩ =
            ⟨true, some c0, 1, 1⟩ from rfl]
      exact runInitOnce_done cs _ rfl
    rw [hthird]
    exact ⟨rfl, rfl, rfl⟩

/-- C1 witness: two concrete configs; the first one wins. -/
theorem init_once_first_config_wins_witness :
    (runInitOnce [⟨[], [], ⟨.Off, []⟩⟩, ⟨[], [], ⟨.Trace, []⟩⟩]
      freshInitState).logger = some ⟨[], [], ⟨.Off, []⟩⟩ :=
  (init_once_first_config_wins [⟨[], [], ⟨.Off, []⟩⟩, ⟨[], [], ⟨.Trace, []⟩⟩]
    (by decide)).1.1

/-- C2 counterexample: the claim says a duplicated-target call fails with
the duplicate-target condition regardless of any prior state of the
one-shot gate; but with the gate already set, init_logging_once_for
short-circuits and returns normally as a no-op, without any failure. -/
theorem init_for_duplicate_gate_set_counterexample :
    init_logging_once_for ["a", "a"] none none ⟨true, none, 0, 0⟩ =
      .ok ⟨true, none, 0, 0⟩ false := by decide

/-- C2 amended: whenever the one-shot gate is not yet set, a call to
init_logging_once_for whose targets contain a duplicate name fails with
the log4rs duplicate-logger-name configuration error (what the spec
calls the DuplicateTarget condition; fatal: a panic out of the .unwrap()
in make_config)
and never reaches init_logging_once; when the gate is already set the call
is a no-op instead. -/
theorem init_for_duplicate_target_panics (targets : List String)
    (level : Option LevelFilter) (pattern : Option String) (s : InitState)
    (honce : s.onceDone = false) (hdup : ¬ targets.Nodup) :
    init_logging_once_for targets level pattern s =
      .panicked .DuplicateLoggerName := by
  unfold init_logging_once_for
  rw [honce]
  simp only [Bool.false_eq_true, if_false]
  rw [make_config_dup_helper targets level pattern hdup]

/-- C2 witness for the amended claim. -/
theorem init_for_duplicate_target_panics_witness :
    init_logging_once_for ["a", "a"] none none freshInitState =
      .panicked .DuplicateLoggerName :=
  init_for_duplicate_target_panics ["a", "a"] none none freshInitState rfl
    (by decide)

/-- C3: logging_test_setup acquires the test mutex (the model starts at the
instant the blocking lock is granted), replaces the config held by the global handle
while holding it, and returns the guard; a poisoned mutex is acquired and
used exactly like a clean one — the function never panics or errors (the
result is always some, also at poisoned = true). -/
theorem logging_test_setup_ignores_poison (config : Config)
    (m : TestMutexState) (h : HandleState) :
    logging_test_setup config m h = some (true, ⟨config⟩) ∧
    logging_test_setup config ⟨true⟩ h = some (true, ⟨config⟩) :=
  ⟨logging_test_setup_eq config m h, logging_test_setup_eq config ⟨true⟩ h⟩

/-- C4: if the one-shot INIT gate is already set, init_logging_once_for
returns immediately: no config object is constructed (configBuilt = false)
and the process state is returned unchanged. -/
theorem init_for_short_circuits (targets : List String)
    (level : Option LevelFilter) (pattern : Option String) (s : InitState)
    (h : s.onceDone = true) :
    init_logging_once_for targets level pattern s = .ok s false := by
  unfold init_logging_once_for
  rw [h]
  simp

/-- C4 witness. -/
theorem init_for_short_circuits_witness :
    init_logging_once_for ["x"] none none ⟨true, none, 0, 0⟩ =
      .ok ⟨true, none, 0, 0⟩ false :=
  init_for_short_circuits ["x"] none none ⟨true, none, 0, 0⟩ rfl

/-- C5: whenever TestConsoleAppender::make_config returns a config: with no
targets it has the single console appender, no named loggers, and a root at
the given (or default Trace) level routed to the console appender; with
targets it has a disabled root (level Off), and exactly one named logger
per target, each at the given level and each routed to the console
appender. -/
theorem make_config_routes (targets : List String)
    (level : Option LevelFilter) (pattern : Option String) (cfg : Config)
    (h : TestConsoleAppender.make_config targets level pattern = .ok cfg) :
    (targets = [] →
      cfg.appenders = [⟨"appender",
          .testConsole (.patternEncoder (pattern.getD "{l} {M}::{L} {m}{n}"))⟩] ∧
      cfg.loggers = [] ∧
      cfg.root = ⟨level.getD .Trace, ["appender"]⟩) ∧
    (targets ≠ [] →
      cfg.appenders = [⟨"appender",
          .testConsole (.patternEncoder (pattern.getD "{l} {M}::{L} {m}{n}"))⟩] ∧
      cfg.loggers = targets.map (fun t => ⟨t, level.getD .Trace, ["appender"]⟩) ∧
      cfg.root = ⟨.Off, []⟩) := by
  cases targets with
  | nil =>
    rw [make_config_nil_helper level pattern] at h
    injection h with h
    subst h
    exact ⟨fun _ => ⟨rfl, rfl, rfl⟩, fun hne => absurd rfl hne⟩
  | cons a ts =>
    by_cases hnd : (a :: ts).Nodup
    · rw [make_config_cons_helper a ts level pattern hnd] at h
      injection h with h
      subst h
      exact ⟨fun hc => absurd hc (by simp), fun _ => ⟨rfl, rfl, rfl⟩⟩
    · rw [make_config_dup_helper (a :: ts) level pattern hnd] at h
      cases h

/-- C5 witness: two distinct targets. -/
theorem make_config_routes_witness :
    (⟨[⟨"appender", .testConsole (.patternEncoder "{l} {M}::{L} {m}{n}")⟩],
      [⟨"foo", .Trace, ["appender"]⟩, ⟨"bar", .Trace, ["appender"]⟩],
      ⟨.Off, []⟩⟩ : Config).loggers =
      ["foo", "bar"].map
        (fun t => ⟨t, (none : Option LevelFilter).getD .Trace, ["appender"]⟩) :=
  ((make_config_routes ["foo", "bar"] none none
      ⟨[⟨"appender", .testConsole (.patternEncoder "{l} {M}::{L} {m}{n}")⟩],
       [⟨"foo", .Trace, ["appender"]⟩, ⟨"bar", .Trace, ["appender"]⟩],
       ⟨.Off, []⟩⟩ (by decide)).2 (by decide)).2.1

/-- C6 counterexample: the claim says the default encoder pattern
"{l} {t} {m}" also applies to MockAppender construction when no encoder is
supplied; but MockAppender::new (src/lib.rs) defaults to
PatternEncoder::default(), whose log4rs pattern is "{d} {l} {t} - {m}{n}". -/
theorem mock_new_default_encoder_counterexample :
    (MockAppender.new none).1.encoder = .patternEncoder "{d} {l} {t} - {m}{n}" ∧
    (MockAppender.new none).1.encoder ≠ .patternEncoder "{l} {t} {m}" := by
  decide

/-- C6 amended: logging_test_setup_mock with no level and no encoder
defaults to level Trace and a PatternEncoder with pattern "{l} {t} {m}",
builds a one-appender/one-root config around a fresh MockAppender, and
returns the guard together with the new, empty log-buffer handle;
MockAppender::new with no encoder instead defaults to
PatternEncoder::default(), whose pattern is "{d} {l} {t} - {m}{n}". -/
theorem setup_mock_defaults (m : TestMutexState) (h : HandleState) :
    logging_test_setup_mock none none m h =
      some (true,
        ⟨⟨[⟨"mock", .mock (.patternEncoder "{l} {t} {m}")⟩], [],
          ⟨.Trace, ["mock"]⟩⟩⟩, []) ∧
    (MockAppender.new none).1.encoder = patternEncoderDefault := by
  refine ⟨?_, rfl⟩
  rw [show logging_test_setup_mock none none m h =
      (logging_test_setup
          ⟨[⟨"mock", .mock (.patternEncoder "{l} {t} {m}")⟩], [],
            ⟨.Trace, ["mock"]⟩⟩ m h).map (fun g => (g.1, g.2, [])) from rfl]
  rw [logging_test_setup_eq]
  rfl

/-- C7: a sequence of MockAppender::append calls without thread
interleaving, each of whose encodings succeeds, grows the shared buffer by
exactly the formatted lines, in call order, dropping and reordering
nothing. -/
theorem mock_append_order (enc : LogRecord → Option String)
    (logs : List String) (rs : List LogRecord)
    (h : ∀ r ∈ rs, (enc r).isSome) :
    MockAppender.appendAll enc logs rs = some (logs ++ rs.filterMap enc) := by
  induction rs generalizing logs with
  | nil => simp [MockAppender.appendAll]
  | cons r rs ih =>
    obtain ⟨line, hline⟩ :=
      Option.isSome_iff_exists.mp (h r (List.mem_cons_self r rs))
    have hrest : ∀ x ∈ rs, (enc x).isSome :=
      fun x hx => h x (List.mem_cons_of_mem r hx)
    show (match MockAppender.append enc logs r with
      | none => none
      | some (logs2, _) => MockAppender.appendAll enc logs2 rs) = _
    simp only [MockAppender.append, hline]
    rw [ih _ hrest]
    simp [List.filterMap_cons, hline]

/-- C7 witness: two records appended in order. -/
theorem mock_append_order_witness :
    MockAppender.appendAll (fun r => some r.message) []
      [⟨.Info, "t", "a"⟩, ⟨.Error, "u", "b"⟩] = some ["a", "b"] := by
  have := mock_append_order (fun r => some r.message) []
    [⟨.Info, "t", "a"⟩, ⟨.Error, "u", "b"⟩] (by decide)
  simpa using this

/-- C8: in MockAppender::append an encoding failure is fatal — the call
panics (none) instead of returning an error — and whenever the call does
return, its anyhow::Result value is Ok(()). -/
theorem mock_append_never_errors (enc : LogRecord → Option String)
    (logs : List String) (r : LogRecord) :
    (enc r = none → MockAppender.append enc logs r = none) ∧
    (∀ out, MockAppender.append enc logs r = some out →
      out.2 = Except.ok ()) := by
  constructor
  · intro h
    simp [MockAppender.append, h]
  · intro out hout
    unfold MockAppender.append at hout
    cases he : enc r with
    | none => rw [he] at hout; cases hout
    | some line =>
      rw [he] at hout
      injection hout with hout
      rw [← hout]

/-- C8 witness: a failing encoder makes append panic rather than return. -/
theorem mock_append_never_errors_witness :
    MockAppender.append (fun _ => none) [] ⟨.Info, "t", "m"⟩ = none :=
  (mock_append_never_errors (fun _ => none) [] ⟨.Info, "t", "m"⟩).1 rfl

/-- C9: StringBuffer::write appends the decoded text and returns Ok for
valid UTF-8 input and fails with an InvalidData error otherwise; validity
is judged per call with no partial-codepoint buffering (the lone lead byte
0xC3 fails, while the complete sequence 0xC3 0xA9 in one call succeeds);
StringBuffer::flush is a no-op that always succeeds. -/
theorem stringbuffer_write_utf8 (sb buf : List Nat) :
    (∀ cps, utf8Decode buf = some cps →
      StringBuffer.write sb buf = (sb ++ cps, .ok buf.length)) ∧
    (utf8Decode buf = none →
      StringBuffer.write sb buf = (sb, .error .InvalidData)) ∧
    StringBuffer.write sb [0xC3] = (sb, .error .InvalidData) ∧
    StringBuffer.write sb [0xC3, 0xA9] = (sb ++ [0xE9], .ok 2) ∧
    StringBuffer.flush sb = (sb, .ok ()) := by
  refine ⟨?_, ?_, rfl, rfl, rfl⟩
  · intro cps hcps
    simp [StringBuffer.write, hcps]
  · intro hnone
    simp [StringBuffer.write, hnone]

/-- C9 witness: a concrete ASCII write. -/
theorem stringbuffer_write_utf8_witness :
    StringBuffer.write [] [0x68, 0x69] = ([0x68, 0x69], .ok 2) :=
  (stringbuffer_write_utf8 [] [0x68, 0x69]).1 [0x68, 0x69] rfl

/-- C10: StringBuffer::write is atomic — either the whole input decodes and
is appended in full, with Ok carrying the full input length, or the call
errors and the buffer is exactly what it was before. -/
theorem stringbuffer_write_atomic (sb buf : List Nat) :
    (∃ cps, utf8Decode buf = some cps ∧
      StringBuffer.write sb buf = (sb ++ cps, .ok buf.length)) ∨
    StringBuffer.write sb buf = (sb, .error .InvalidData) := by
  cases hd : utf8Decode buf with
  | none =>
    right
    simp [StringBuffer.write, hd]
  | some cps =>
    left
    exact ⟨cps, rfl, by simp [StringBuffer.write, hd]⟩

end Log4rsTestUtils
